import Mathlib

/-!
# Verification of the cosmic-monitor-applet telemetry collectors

Shallow embedding of the background telemetry collectors of the
cosmic-monitor-applet repository (src/widget/network.rs, weather.rs,
notifications.rs, media.rs, temperature.rs, utilization.rs), together with
theorems settling the specification claims.

Machine floating-point arithmetic of the source is idealised over `ℚ`;
byte counters and timestamps are `ℕ`; Rust strings are embedded as
`List Char` (the inputs of interest are ASCII).
-/

namespace CosmicMonitor

/-! ## Network collector (src/widget/network.rs)

`NetworkMonitor` keeps the previous summed RX/TX byte counters, the two
published rates and the timestamp of the last update.  `update` receives
the freshly summed counters (the sysinfo refresh and per-interface
summation are environment inputs) plus the current time. -/

structure NetworkState where
  network_rx_bytes : ℕ
  network_tx_bytes : ℕ
  network_rx_rate : ℚ
  network_tx_rate : ℚ
  last_update : ℚ
  deriving DecidableEq

/-- `NetworkMonitor::new`: zero counters and rates; `last_update` is the
creation instant `t0`. -/
def NetworkMonitor.new (t0 : ℚ) : NetworkState :=
  { network_rx_bytes := 0
    network_tx_bytes := 0
    network_rx_rate := 0
    network_tx_rate := 0
    last_update := t0 }

/-- `NetworkMonitor::update` (network.rs lines 114-145): rates are computed
from the counter deltas only when the stored RX baseline is positive AND
both summed counters are at least their stored baselines; otherwise both
rates are reset to 0.  The current counters and timestamp always become
the new baseline. -/
def NetworkMonitor.update (s : NetworkState) (now : ℚ)
    (total_rx total_tx : ℕ) : NetworkState :=
  let elapsed := now - s.last_update
  if 0 < s.network_rx_bytes ∧ s.network_rx_bytes ≤ total_rx ∧
      s.network_tx_bytes ≤ total_tx then
    { network_rx_bytes := total_rx
      network_tx_bytes := total_tx
      network_rx_rate := ((total_rx - s.network_rx_bytes : ℕ) : ℚ) / elapsed
      network_tx_rate := ((total_tx - s.network_tx_bytes : ℕ) : ℚ) / elapsed
      last_update := now }
  else
    { network_rx_bytes := total_rx
      network_tx_bytes := total_tx
      network_rx_rate := 0
      network_tx_rate := 0
      last_update := now }

/-- A state with RX and TX baselines both 100, used to exhibit the coupling
between the two directions in `NetworkMonitor::update`. -/
def netCoupledState : NetworkState :=
  { network_rx_bytes := 100
    network_tx_bytes := 100
    network_rx_rate := 0
    network_tx_rate := 0
    last_update := 0 }

/-! ## Utilization collector, processor/memory part (src/widget/utilization.rs) -/

structure UtilizationState where
  cpu_usage : ℚ
  memory_usage : ℚ
  memory_total : ℕ
  memory_used : ℕ

/-- `UtilizationMonitor::update` (utilization.rs lines 144-160): the global
CPU percentage and the used/total memory figures are read from the
environment; the memory percentage divides only when the total is
positive, otherwise it is 0. -/
def UtilizationMonitor.update (cpu : ℚ) (used total : ℕ) : UtilizationState :=
  { cpu_usage := cpu
    memory_used := used
    memory_total := total
    memory_usage :=
      if 0 < total then ((used : ℚ) / (total : ℚ)) * 100 else 0 }

/-! ## Character-list string helpers

Rust `str` operations used by the parsers, embedded on `List Char`.
All source inputs of interest are ASCII, so byte indices and character
indices coincide. -/

/-- Rust `char::is_whitespace` restricted to the ASCII whitespace that the
monitored streams can contain. -/
def isWhitespaceChar (c : Char) : Bool :=
  c == ' ' || c == '\t' || c == '\n' || c == '\r'

/-- Rust `str::trim`: strip whitespace from both ends. -/
def trimChars (cs : List Char) : List Char :=
  ((cs.dropWhile isWhitespaceChar).reverse.dropWhile isWhitespaceChar).reverse

/-- Rust `str::rfind(c)`: index of the last occurrence of a matching
character. -/
def rfindIdx (cs : List Char) (p : Char → Bool) : Option ℕ :=
  match cs.reverse.findIdx? p with
  | some i => some (cs.length - 1 - i)
  | none => none

/-- Rust `str::find(pat)` for a string pattern: index of the first
occurrence of `needle` as a contiguous substring. -/
def findSubstrIdx (hay needle : List Char) : Option ℕ :=
  match hay with
  | [] => if needle.isEmpty then some 0 else none
  | _ :: rest =>
    if needle.isPrefixOf hay then some 0
    else (findSubstrIdx rest needle).map (· + 1)

/-- Rust `str::contains(pat)` for a string pattern. -/
def containsSubstring (hay needle : List Char) : Bool :=
  (findSubstrIdx hay needle).isSome

/-- Digits of a decimal literal folded into a natural number. -/
def digitsToNat (ds : List Char) : ℕ :=
  ds.foldl (fun a c => a * 10 + (c.toNat - 48)) 0

/-- Rust `str::parse::<u64>()`: optional leading `+`, then decimal digits,
failing on the empty string, a non-digit, or overflow past `2^64`. -/
def parseU64 (cs : List Char) : Option ℕ :=
  let ds := match cs with
    | '+' :: rest => rest
    | _ => cs
  if !ds.isEmpty && ds.all (·.isDigit) then
    let v := digitsToNat ds
    if v < 2 ^ 64 then some v else none
  else none

/-- Magnitude of an unsigned decimal literal over `ℚ`: integer digits,
optionally followed by `.` and fractional digits. -/
def parseDecimalMag (body : List Char) : Option ℚ :=
  let intPart := body.takeWhile (·.isDigit)
  let restPart := body.drop intPart.length
  match restPart with
  | [] =>
    if intPart.isEmpty then none
    else some (digitsToNat intPart : ℚ)
  | '.' :: fracPart =>
    if intPart.isEmpty || !fracPart.all (·.isDigit) then none
    else some ((digitsToNat intPart : ℚ) +
      (digitsToNat fracPart : ℚ) / (10 : ℚ) ^ fracPart.length)
  | _ => none

/-- Rust `str::parse::<f32>()` / `::<f64>()` on the plain decimal literals
produced by sysfs and the media API, idealised over `ℚ`: optional sign,
then an unsigned decimal magnitude. -/
def parseDecimalQ (cs : List Char) : Option ℚ :=
  match cs with
  | '-' :: rest => (parseDecimalMag rest).map (fun q => -q)
  | '+' :: rest => parseDecimalMag rest
  | _ => parseDecimalMag cs

/-- Rust `expr as u64` on a nonnegative-or-saturating float value:
truncation toward zero, negatives saturating to 0, values past the top
saturating to `2^64 - 1`. -/
def ratAsU64 (q : ℚ) : ℕ :=
  min (Int.toNat ⌊q⌋) (2 ^ 64 - 1)

/-! ## Weather collector (src/widget/weather.rs)

`update` is modelled as a function of the current time (seconds) and of
the environment's response to a fetch (`some data` on success, `none` on
failure).  The returned `Bool` records whether an outbound fetch was
performed in this call. -/

structure WeatherData where
  temperature : ℚ
  feels_like : ℚ
  temp_min : ℚ
  temp_max : ℚ
  humidity : ℕ
  description : String
  icon : String
  location : String
  deriving DecidableEq

structure WeatherState where
  weather_data : Option WeatherData
  last_update : ℕ
  api_key : String
  location : String
  deriving DecidableEq

/-- `WeatherMonitor::update` (weather.rs lines 78-100): return without
fetching when the key or location is empty, or when fewer than 600
seconds elapsed since `last_update`; otherwise fetch, and only on success
store the data and advance `last_update`. -/
def WeatherMonitor.update (s : WeatherState) (now : ℕ)
    (fetch_result : Option WeatherData) : WeatherState × Bool :=
  if s.api_key.isEmpty || s.location.isEmpty then (s, false)
  else if now - s.last_update < 600 then (s, false)
  else
    match fetch_result with
    | some data => ({ s with weather_data := some data, last_update := now }, true)
    | none => (s, true)

/-- A weather state whose last successful fetch is long past, used for the
double-fetch scenario. -/
def staleWeatherState : WeatherState :=
  { weather_data := none
    last_update := 0
    api_key := "key"
    location := "London" }

/-- An arbitrary concrete successful fetch payload. -/
def someWeatherData : WeatherData :=
  { temperature := 21
    feels_like := 20
    temp_min := 18
    temp_max := 24
    humidity := 40
    description := "Clear sky"
    icon := "01d"
    location := "London" }

/-! ## Temperature collector (src/widget/temperature.rs) -/

structure SensorComponent where
  label : List Char
  temperature : ℚ
  deriving DecidableEq

/-- CPU sensor classification (temperature.rs lines 102-109): the
lowercased label contains one of `cpu`, `package`, `core`, `tctl`,
`tdie`. -/
def cpuLabelMatch (label : List Char) : Bool :=
  let l := label.map Char.toLower
  containsSubstring l "cpu".toList || containsSubstring l "package".toList ||
    containsSubstring l "core".toList || containsSubstring l "tctl".toList ||
    containsSubstring l "tdie".toList

/-- GPU sensor classification (temperature.rs lines 113-121): the
lowercased label contains one of `gpu`, `nvidia`, `amd`, `radeon`,
`edge`. -/
def gpuLabelMatch (label : List Char) : Bool :=
  let l := label.map Char.toLower
  containsSubstring l "gpu".toList || containsSubstring l "nvidia".toList ||
    containsSubstring l "amd".toList || containsSubstring l "radeon".toList ||
    containsSubstring l "edge".toList

/-- The first-match-wins scan of `TemperatureMonitor::update`: the loop
sets the reading from the first matching sensor and breaks; with no match
the reading keeps the 0.0 written before the loop. -/
def firstMatchTemp (p : List Char → Bool) : List SensorComponent → ℚ
  | [] => 0
  | c :: rest => if p c.label then c.temperature else firstMatchTemp p rest

structure TemperatureState where
  cpu_temp : ℚ
  gpu_temp : ℚ

/-- `TemperatureMonitor::update` (temperature.rs lines 95-122) on an
enumerated sensor list. -/
def TemperatureMonitor.update (components : List SensorComponent) : TemperatureState :=
  { cpu_temp := firstMatchTemp cpuLabelMatch components
    gpu_temp := firstMatchTemp gpuLabelMatch components }

/-! ## Utilization collector, Intel GPU sysfs strategy
(src/widget/utilization.rs lines 300-328)

A `/sys/class/drm` entry carries its name and the contents of the
`gt/gt0/rps_cur_freq_mhz` and `gt/gt0/rps_max_freq_mhz` files when they
are readable. -/

structure DrmEntry where
  name : List Char
  cur_freq_file : Option (List Char)
  max_freq_file : Option (List Char)

/-- `name_str.starts_with("card") && !name_str.contains('-')`. -/
def isCardEntry (name : List Char) : Bool :=
  "card".toList.isPrefixOf name && !(name.contains '-')

/-- The sysfs loop of `UtilizationMonitor::fetch_intel_gpu_usage`: for the
first card entry whose two frequency files read and parse and whose max
frequency is strictly positive, return `(cur / max) * 100`; every other
entry is skipped and the scan continues. -/
def fetchIntelSysfs : List DrmEntry → Option ℚ
  | [] => none
  | e :: rest =>
    if isCardEntry e.name then
      match e.cur_freq_file, e.max_freq_file with
      | some cur_s, some max_s =>
        match parseDecimalQ (trimChars cur_s), parseDecimalQ (trimChars max_s) with
        | some cur, some mx =>
          if 0 < mx then some (cur / mx * 100) else fetchIntelSysfs rest
        | _, _ => fetchIntelSysfs rest
      | _, _ => fetchIntelSysfs rest
    else fetchIntelSysfs rest

/-! ## Notification listener (src/widget/notifications.rs)

The `busctl` stream parser is a streaming state machine over lines; the
wall-clock Unix timestamp taken at emission time is an input. -/

structure Notification where
  app_name : String
  summary : String
  body : String
  timestamp : ℕ
  deriving DecidableEq

/-- Emission step (notifications.rs lines 249-255): insert at index 0,
then truncate from the tail when the list exceeds the cap. -/
def emitNotification (n : Notification) (max_count : ℕ)
    (notifs : List Notification) : List Notification :=
  let inserted := n :: notifs
  if max_count < inserted.length then inserted.take max_count else inserted

/-- The mutable locals of `monitor_notifications` plus the shared list. -/
structure ParserState where
  current_app_name : List Char
  current_summary : List Char
  current_body : List Char
  string_field_index : ℕ
  in_notify_call : Bool
  notifications : List Notification
  deriving DecidableEq

/-- The parser's starting state: empty captures, field index 0, idle, and
an empty shared list. -/
def initialParserState : ParserState :=
  { current_app_name := []
    current_summary := []
    current_body := []
    string_field_index := 0
    in_notify_call := false
    notifications := [] }

/-- Field dispatch on a captured STRING value (notifications.rs lines
221-260): index 0 stores the application name, index 2 the summary; index
3 stores the body, leaves the Notify call, and, when the captured summary
is non-empty, emits a `Notification` (empty application name replaced by
the literal `System`); any other index is ignored.  The field index is
then advanced. -/
def handleStringValue (max_count ts : ℕ) (st : ParserState)
    (value : List Char) : ParserState :=
  let st2 :=
    match st.string_field_index with
    | 0 => { st with current_app_name := value }
    | 2 => { st with current_summary := value }
    | 3 =>
      let st3 := { st with current_body := value, in_notify_call := false }
      if !st3.current_summary.isEmpty then
        let n : Notification :=
          { app_name :=
              if st3.current_app_name.isEmpty then "System"
              else String.mk st3.current_app_name
            summary := String.mk st3.current_summary
            body := String.mk st3.current_body
            timestamp := ts }
        { st3 with notifications := emitNotification n max_count st3.notifications }
      else st3
    | _ => st
  { st2 with string_field_index := st2.string_field_index + 1 }

/-- One line of the `monitor_notifications` loop (notifications.rs lines
196-265): a line containing `Member=Notify` resets the captures and
enters a Notify call; while inside a call, a trimmed line starting with
`STRING "` has the text between its first and last quote captured; all
other lines are skipped. -/
def processLine (max_count ts : ℕ) (st : ParserState)
    (line : List Char) : ParserState :=
  let trimmed := trimChars line
  if containsSubstring trimmed "Member=Notify".toList then
    { st with
      current_app_name := []
      current_summary := []
      current_body := []
      string_field_index := 0
      in_notify_call := true }
  else if st.in_notify_call && "STRING \"".toList.isPrefixOf trimmed then
    match trimmed.findIdx? (· == '"') with
    | none => st
    | some start =>
      match rfindIdx trimmed (· == '"') with
      | none => st
      | some stop =>
        if start < stop then
          handleStringValue max_count ts st
            ((trimmed.drop (start + 1)).take (stop - (start + 1)))
        else st
  else st

/-- The line loop folded over a finite stream of lines. -/
def processLines (max_count ts : ℕ) (st : ParserState)
    (lines : List (List Char)) : ParserState :=
  lines.foldl (processLine max_count ts) st

/-- The literal line sequence of the C3 scenario. -/
def notifyLinesA : List (List Char) :=
  ["Member=Notify".toList,
   "STRING \"Firefox\"".toList,
   "STRING \"\"".toList,
   "STRING \"Build complete\"".toList,
   "STRING \"Target ready\"".toList]

/-- The same sequence with the first STRING line emptied. -/
def notifyLinesB : List (List Char) :=
  ["Member=Notify".toList,
   "STRING \"\"".toList,
   "STRING \"\"".toList,
   "STRING \"Build complete\"".toList,
   "STRING \"Target ready\"".toList]

/-- Administrative operations on the shared notification list. -/
inductive NotifOp where
  | emit (n : Notification)
  | clearAll
  | clearApp (app : String)
  | remove (app : String) (ts : ℕ)

/-- The list mutations of the listener and of `clear`, `clear_app`,
`remove_notification` (notifications.rs lines 249-255 and 282-311):
emission as above; clear removes everything; clear-by-app retains the
records of other applications; remove retains everything but the matching
`(app_name, timestamp)` pair. -/
def applyNotifOp (max_count : ℕ) (notifs : List Notification) :
    NotifOp → List Notification
  | .emit n => emitNotification n max_count notifs
  | .clearAll => []
  | .clearApp app => notifs.filter (fun x => !(x.app_name == app))
  | .remove app ts =>
    notifs.filter (fun x => !(x.app_name == app && x.timestamp == ts))

/-! ## Media collector (src/widget/media.rs) -/

inductive PlaybackStatus where
  | Playing
  | Paused
  | Stopped
  deriving DecidableEq

structure MediaInfo where
  player_name : String
  title : String
  artist : String
  album : String
  art_url : Option String
  status : PlaybackStatus
  position : ℕ
  duration : ℕ
  can_play : Bool
  can_pause : Bool
  can_go_next : Bool
  can_go_previous : Bool
  can_seek : Bool
  deriving DecidableEq

/-- `MediaInfo::default()`: empty strings, `Stopped`, zero positions,
all capability flags off. -/
def MediaInfo.default : MediaInfo :=
  { player_name := ""
    title := ""
    artist := ""
    album := ""
    art_url := none
    status := .Stopped
    position := 0
    duration := 0
    can_play := false
    can_pause := false
    can_go_next := false
    can_go_previous := false
    can_seek := false }

/-- `MediaInfo::is_active` (media.rs lines 104-106): non-empty player name
and non-empty title. -/
def MediaInfo.is_active (m : MediaInfo) : Bool :=
  !m.player_name.isEmpty && !m.title.isEmpty

/-- `MediaMonitor::extract_json_string` (media.rs lines 354-359): find the
key, then take the text up to the next quote. -/
def extract_json_string (json key : List Char) : Option (List Char) :=
  match findSubstrIdx json key with
  | none => none
  | some i =>
    let rest := json.drop (i + key.length)
    match rest.findIdx? (· == '"') with
    | none => none
    | some e => some (rest.take e)

/-- `MediaMonitor::extract_json_number` (media.rs lines 364-369): find the
key, then take the trimmed text up to the next `,`, `}` or `]`. -/
def extract_json_number (json key : List Char) : Option (List Char) :=
  match findSubstrIdx json key with
  | none => none
  | some i =>
    let rest := json.drop (i + key.length)
    match rest.findIdx? (fun c => c == ',' || c == '\x7d' || c == ']') with
    | none => none
    | some e => some (trimChars (rest.take e))

/-- `MediaMonitor::parse_cider_response` (media.rs lines 285-349): reject a
response without `"status":"ok"`; build a `MediaInfo` with the Cider
player name, the capability flags on, and the status derived from the
is-playing probe; fill each field whose targeted key search succeeds; and
reject the whole response when the extracted title is empty. -/
def parse_cider_response (json : List Char) (is_playing : Bool) :
    Option MediaInfo :=
  if !containsSubstring json "\"status\":\"ok\"".toList then none
  else
    let playback_status : PlaybackStatus :=
      if is_playing then .Playing else .Paused
    let title := match extract_json_string json "\"name\":\"".toList with
      | some name => String.mk name
      | none => ""
    let artist := match extract_json_string json "\"artistName\":\"".toList with
      | some a => String.mk a
      | none => ""
    let album := match extract_json_string json "\"albumName\":\"".toList with
      | some a => String.mk a
      | none => ""
    let art_url := (extract_json_string json "\"url\":\"".toList).map String.mk
    let duration := match extract_json_number json "\"durationInMillis\":".toList with
      | some dur_s =>
        match parseU64 dur_s with
        | some dur => dur
        | none => 0
      | none => 0
    let position := match extract_json_number json "\"currentPlaybackTime\":".toList with
      | some pos_s =>
        match parseDecimalQ pos_s with
        | some pos => ratAsU64 (pos * 1000)
        | none => 0
      | none => 0
    let info : MediaInfo :=
      { player_name := "Cider"
        title := title
        artist := artist
        album := album
        art_url := art_url
        status := playback_status
        position := position
        duration := duration
        can_play := true
        can_pause := true
        can_go_next := true
        can_go_previous := true
        can_seek := true }
    if info.title.isEmpty then none else some info

/-- Publication step of `monitor_loop` (media.rs lines 196-211): a parsed
result replaces the shared state wholesale; no result resets it to the
default. -/
def publishMediaResult (result : Option MediaInfo) : MediaInfo :=
  match result with
  | some info => info
  | none => MediaInfo.default

/-- The position sent in the seek request body (media.rs line 468):
`position_seconds as u64`. -/
def seekRequestPosition (position_seconds : ℚ) : ℕ :=
  ratAsU64 position_seconds

/-- The optimistic local position written by `seek` (media.rs line 477):
`(position_seconds * 1000.0) as u64` milliseconds. -/
def seekLocalPositionMs (position_seconds : ℚ) : ℕ :=
  ratAsU64 (position_seconds * 1000)

/-- `MediaMonitor::seek_to_progress` (media.rs lines 493-500): the target
passed to `seek`, namely `(duration_ms / 1000) * progress.clamp(0, 1)`
seconds. -/
def seek_to_progress_target (duration_ms : ℕ) (progress : ℚ) : ℚ :=
  ((duration_ms : ℚ) / 1000) * (min (max progress 0) 1)

/-! ## Claim theorems -/

/-- C1 (counterexample): the claim that each direction's rate is computed
independently of the other direction fails.  With RX and TX baselines
both 100, current RX 200 and current TX 50 at elapsed time 1, the claim
demands `network_rx_rate = (200 - 100) / 1 = 100`, but the code computes
0 because the TX counter decreased. -/
theorem network_rates_coupled_counterexample :
    (NetworkMonitor.update netCoupledState 1 200 50).network_rx_rate = 0 ∧
    ((200 - 100 : ℚ) / (1 - 0)) ≠ 0 := by
  constructor
  · rfl
  · norm_num

/-- C1 (amended): rates follow the delta-over-elapsed formula only when
the stored RX baseline is positive AND both summed counters are at least
their stored baselines; under those joint conditions both directions are
computed exactly. -/
theorem network_rates_amended (s : NetworkState) (now : ℚ) (rx tx : ℕ)
    (hb : 0 < s.network_rx_bytes) (hrx : s.network_rx_bytes ≤ rx)
    (htx : s.network_tx_bytes ≤ tx) (_ht : s.last_update < now) :
    (NetworkMonitor.update s now rx tx).network_rx_rate =
      ((rx : ℚ) - (s.network_rx_bytes : ℚ)) / (now - s.last_update) ∧
    (NetworkMonitor.update s now rx tx).network_tx_rate =
      ((tx : ℚ) - (s.network_tx_bytes : ℚ)) / (now - s.last_update) := by
  unfold NetworkMonitor.update
  rw [if_pos ⟨hb, hrx, htx⟩]
  constructor
  · simp [Nat.cast_sub hrx]
  · simp [Nat.cast_sub htx]

/-- C1 (witness): the amended theorem applied at the coupled state with
both counters grown and elapsed time 1. -/
theorem network_rates_amended_witness :
    (NetworkMonitor.update netCoupledState 1 200 300).network_rx_rate =
      (((200 : ℕ) : ℚ) - (netCoupledState.network_rx_bytes : ℚ)) /
        (1 - netCoupledState.last_update) := by
  exact (network_rates_amended netCoupledState 1 200 300 (by decide) (by decide)
    (by decide) (by norm_num [netCoupledState])).1

/-- C4: on the first-ever update, and whenever a summed counter is below
its stored baseline, both rates are 0 and the current counters and
timestamp become the new baseline. -/
theorem network_reset_yields_zero (s : NetworkState) (now : ℚ) (rx tx : ℕ)
    (h : (∃ t0, s = NetworkMonitor.new t0) ∨
         rx < s.network_rx_bytes ∨ tx < s.network_tx_bytes) :
    (NetworkMonitor.update s now rx tx).network_rx_rate = 0 ∧
    (NetworkMonitor.update s now rx tx).network_tx_rate = 0 ∧
    (NetworkMonitor.update s now rx tx).network_rx_bytes = rx ∧
    (NetworkMonitor.update s now rx tx).network_tx_bytes = tx ∧
    (NetworkMonitor.update s now rx tx).last_update = now := by
  have hcond : ¬(0 < s.network_rx_bytes ∧ s.network_rx_bytes ≤ rx ∧
      s.network_tx_bytes ≤ tx) := by
    rcases h with ⟨t0, rfl⟩ | h | h
    · simp [NetworkMonitor.new]
    · rintro ⟨_, h2, _⟩; omega
    · rintro ⟨_, _, h3⟩; omega
  unfold NetworkMonitor.update
  rw [if_neg hcond]
  exact ⟨rfl, rfl, rfl, rfl, rfl⟩

/-- C4 (witness): the reset theorem applied to the freshly created monitor
at time 5 with counters 10 and 20. -/
theorem network_reset_yields_zero_witness :
    (NetworkMonitor.update (NetworkMonitor.new 0) 5 10 20).network_rx_rate = 0 ∧
    (NetworkMonitor.update (NetworkMonitor.new 0) 5 10 20).network_tx_rate = 0 ∧
    (NetworkMonitor.update (NetworkMonitor.new 0) 5 10 20).network_rx_bytes = 10 ∧
    (NetworkMonitor.update (NetworkMonitor.new 0) 5 10 20).network_tx_bytes = 20 ∧
    (NetworkMonitor.update (NetworkMonitor.new 0) 5 10 20).last_update = 5 :=
  network_reset_yields_zero (NetworkMonitor.new 0) 5 10 20 (Or.inl ⟨0, rfl⟩)

/-- C9: the memory usage percentage equals `used / total * 100` whenever
the total is positive, and is 0 when the total is 0, so the division is
never performed with a zero denominator. -/
theorem memory_usage_guarded (cpu : ℚ) (used total : ℕ) :
    (0 < total →
      (UtilizationMonitor.update cpu used total).memory_usage =
        ((used : ℚ) / (total : ℚ)) * 100) ∧
    (total = 0 → (UtilizationMonitor.update cpu used total).memory_usage = 0) := by
  constructor
  · intro h
    simp [UtilizationMonitor.update, h]
  · intro h
    subst h
    simp [UtilizationMonitor.update]

/-- C9 (witness): the guarded formula evaluated at used 50 of total 100,
and at a zero total. -/
theorem memory_usage_guarded_witness :
    (UtilizationMonitor.update 0 50 100).memory_usage =
      ((50 : ℕ) : ℚ) / ((100 : ℕ) : ℚ) * 100 ∧
    (UtilizationMonitor.update 0 7 0).memory_usage = 0 :=
  ⟨(memory_usage_guarded 0 50 100).1 (by decide),
   (memory_usage_guarded 0 7 0).2 rfl⟩

/-- C2 (counterexample): two refresh requests 100 seconds apart can both
perform an outbound fetch: when the first fetch fails, `last_update` is
not advanced, so the second request fetches again inside the window. -/
theorem weather_single_fetch_counterexample :
    (WeatherMonitor.update staleWeatherState 600 none).2 = true ∧
    (WeatherMonitor.update (WeatherMonitor.update staleWeatherState 600 none).1 700
      (some someWeatherData)).2 = true ∧
    700 - 600 < 600 := by
  exact ⟨rfl, rfl, by norm_num⟩

/-- C2 (amended): at most one successful fetch per window: after an update
that performs a fetch and succeeds, any further update within 600 seconds
performs no fetch; only a failed fetch leaves the interval timer behind
and thereby allows a retry. -/
theorem weather_single_fetch_amended (s : WeatherState) (t1 t2 : ℕ)
    (d : WeatherData) (r : Option WeatherData)
    (hfetch : (WeatherMonitor.update s t1 (some d)).2 = true)
    (hwin : t2 - t1 < 600) :
    (WeatherMonitor.update (WeatherMonitor.update s t1 (some d)).1 t2 r).2 = false := by
  unfold WeatherMonitor.update at hfetch ⊢
  by_cases h1 : s.api_key.isEmpty || s.location.isEmpty
  · simp [h1] at hfetch
  · by_cases h2 : t1 - s.last_update < 600
    · simp [h1, h2] at hfetch
    · simp [h1, h2, hwin]

/-- C2 (witness): the amended theorem applied to the stale state with a
successful fetch at time 600 followed by a request at time 700. -/
theorem weather_single_fetch_amended_witness :
    (WeatherMonitor.update (WeatherMonitor.update staleWeatherState 600
      (some someWeatherData)).1 700 none).2 = false :=
  weather_single_fetch_amended staleWeatherState 600 700 someWeatherData none
    rfl (by norm_num)

/-- C6: `seek_to_progress` hands `seek` the target
`(duration_ms / 1000) * clamp(progress, 0, 1)` seconds: the concrete case
of progress 1/2 on a 200000 ms track requests a seek to 100 seconds; the
clamp is the identity on `[0, 1]`, saturates to the full duration above 1
and to 0 below 0. -/
theorem seek_to_progress_clamped :
    seekRequestPosition (seek_to_progress_target 200000 (1 / 2)) = 100 ∧
    (∀ (d : ℕ) (p : ℚ), 0 ≤ p → p ≤ 1 →
      seek_to_progress_target d p = (d : ℚ) / 1000 * p) ∧
    (∀ (d : ℕ) (p : ℚ), 1 ≤ p → seek_to_progress_target d p = (d : ℚ) / 1000) ∧
    (∀ (d : ℕ) (p : ℚ), p ≤ 0 → seek_to_progress_target d p = 0) := by
  refine ⟨?_, ?_, ?_, ?_⟩
  · norm_num [seek_to_progress_target, seekRequestPosition, ratAsU64]
    decide
  · intro d p h0 h1
    rw [seek_to_progress_target, max_eq_left h0, min_eq_left h1]
  · intro d p h
    rw [seek_to_progress_target, max_eq_left (le_trans zero_le_one h),
      min_eq_right h, mul_one]
  · intro d p h
    rw [seek_to_progress_target, max_eq_right h]
    simp

/-- C6 (witness): the in-range clamp case evaluated at duration 200000 ms
and progress 1/2. -/
theorem seek_to_progress_clamped_witness :
    (0 : ℚ) ≤ 1 / 2 ∧
    seek_to_progress_target 200000 (1 / 2) = ((200000 : ℕ) : ℚ) / 1000 * (1 / 2) :=
  ⟨by norm_num,
   seek_to_progress_clamped.2.1 200000 (1 / 2) (by norm_num) (by norm_num)⟩

/-- A parser state about to capture field index 3 with an empty summary. -/
def emptySummaryState : ParserState :=
  { initialParserState with string_field_index := 3, in_notify_call := true }

/-- C3: the literal Notify line sequence emits exactly one notification
with app `Firefox`, summary `Build complete`, body `Target ready`; with
the first STRING line emptied, the app name falls back to the literal
`System`; and capturing field index 3 with an empty summary emits
nothing. -/
theorem notify_parse_sequence :
    (∀ ts : ℕ, (processLines 10 ts initialParserState notifyLinesA).notifications =
      [{ app_name := "Firefox", summary := "Build complete",
         body := "Target ready", timestamp := ts }]) ∧
    (∀ ts : ℕ, (processLines 10 ts initialParserState notifyLinesB).notifications =
      [{ app_name := "System", summary := "Build complete",
         body := "Target ready", timestamp := ts }]) ∧
    (∀ (mx ts : ℕ) (st : ParserState) (value : List Char),
      st.string_field_index = 3 → st.current_summary = [] →
      (handleStringValue mx ts st value).notifications = st.notifications) := by
  refine ⟨fun ts => rfl, fun ts => rfl, fun mx ts st value h3 hsum => ?_⟩
  simp [handleStringValue, h3, hsum]

/-- C3 (witness): the empty-summary case applied at field index 3 of the
idle-derived state. -/
theorem notify_parse_sequence_witness :
    (handleStringValue 10 7 emptySummaryState "x".toList).notifications =
      emptySummaryState.notifications :=
  notify_parse_sequence.2.2 10 7 emptySummaryState "x".toList rfl rfl

/-- Emission is literally insertion at index 0 followed by truncation to
the cap. -/
theorem emitNotification_eq_take (n : Notification) (mx : ℕ)
    (notifs : List Notification) :
    emitNotification n mx notifs = (n :: notifs).take mx := by
  unfold emitNotification
  by_cases h : mx < (n :: notifs).length
  · simp only [h, if_true]
  · simp only [h, if_false]
    exact (List.take_of_length_le (by omega)).symm

/-- Folding emissions over a stream: the list is always the newest `mx`
records in newest-first order. -/
theorem foldl_emit_eq_take (mx : ℕ) (l acc : List Notification) :
    l.foldl (fun a n => emitNotification n mx a) (acc.take mx) =
      (l.reverse ++ acc).take mx := by
  induction l generalizing acc with
  | nil => simp
  | cons n t ih =>
    have step : emitNotification n mx (acc.take mx) = (n :: acc).take mx := by
      rw [emitNotification_eq_take]
      cases mx with
      | zero => simp
      | succ m =>
        simp [List.take_succ_cons, List.take_take, Nat.min_eq_left (Nat.le_succ m)]
    rw [List.foldl_cons, step, ih (n :: acc)]
    simp

/-- C5: every emission places the new record at index 0 (for a positive
cap) and the result is a front segment of insert-at-0 (truncation only
from the tail); every list operation preserves the cap invariant; and
emitting `N + 1` distinct records into an empty list capped at `N` drops
the oldest and leaves exactly `N`. -/
theorem notification_list_invariants :
    (∀ (mx : ℕ) (n : Notification) (notifs : List Notification),
      0 < mx → (emitNotification n mx notifs).head? = some n) ∧
    (∀ (mx : ℕ) (n : Notification) (notifs : List Notification),
      (emitNotification n mx notifs) <+: (n :: notifs)) ∧
    (∀ (mx : ℕ) (notifs : List Notification) (op : NotifOp),
      notifs.length ≤ mx → (applyNotifOp mx notifs op).length ≤ mx) ∧
    (∀ (mx : ℕ) (n1 : Notification) (rest : List Notification),
      rest.length = mx → n1 ∉ rest →
      n1 ∉ (n1 :: rest).foldl (fun a n => emitNotification n mx a) [] ∧
      ((n1 :: rest).foldl (fun a n => emitNotification n mx a) []).length = mx) := by
  refine ⟨?_, ?_, ?_, ?_⟩
  · intro mx n notifs h
    rw [emitNotification_eq_take]
    cases mx with
    | zero => omega
    | succ m => simp [List.take_succ_cons]
  · intro mx n notifs
    rw [emitNotification_eq_take]
    exact List.take_prefix mx (n :: notifs)
  · intro mx notifs op h
    cases op with
    | emit n =>
      rw [applyNotifOp, emitNotification_eq_take]
      simp [List.length_take]
    | clearAll => simp [applyNotifOp]
    | clearApp app =>
      exact le_trans (List.length_filter_le _ _) h
    | remove app ts =>
      exact le_trans (List.length_filter_le _ _) h
  · intro mx n1 rest hlen hmem
    have hfold : (n1 :: rest).foldl (fun a n => emitNotification n mx a) [] =
        rest.reverse := by
      have h0 : ([] : List Notification) = ([] : List Notification).take mx := by
        simp
      rw [h0, foldl_emit_eq_take]
      have : (n1 :: rest).reverse ++ [] = rest.reverse ++ [n1] := by simp
      rw [this]
      have hlen' : rest.reverse.length = mx := by simp [hlen]
      rw [← hlen']
      exact List.take_left _ _
    rw [hfold]
    constructor
    · simpa using hmem
    · simp [hlen]

/-- Two distinct concrete notifications for the cap witness. -/
def demoNotifA : Notification :=
  { app_name := "AppA", summary := "first", body := "", timestamp := 1 }

/-- The newer of the two concrete notifications. -/
def demoNotifB : Notification :=
  { app_name := "AppB", summary := "second", body := "", timestamp := 2 }

/-- C5 (witness): head position with cap 3, and the `N + 1` overflow case
with cap 1: emitting `demoNotifA` then `demoNotifB` leaves only the newer
record. -/
theorem notification_list_invariants_witness :
    (emitNotification demoNotifA 3 []).head? = some demoNotifA ∧
    (demoNotifA ∉ [demoNotifA, demoNotifB].foldl
        (fun a n => emitNotification n 1 a) [] ∧
      ([demoNotifA, demoNotifB].foldl
        (fun a n => emitNotification n 1 a) []).length = 1) :=
  ⟨notification_list_invariants.1 3 demoNotifA [] (by norm_num),
   notification_list_invariants.2.2.2 1 demoNotifA [demoNotifB] rfl (by decide)⟩

/-- The first-match scan agrees with `List.find?`, defaulting to 0. -/
theorem firstMatchTemp_eq_find (p : List Char → Bool)
    (l : List SensorComponent) :
    firstMatchTemp p l =
      ((l.find? fun c => p c.label).map SensorComponent.temperature).getD 0 := by
  induction l with
  | nil => rfl
  | cons c rest ih =>
    by_cases h : p c.label
    · simp [firstMatchTemp, List.find?_cons_of_pos, h]
    · simp [firstMatchTemp, List.find?_cons_of_neg, h, ih]

/-- A sensor matching neither predicate can be removed from the scan. -/
theorem firstMatchTemp_skip (p : List Char → Bool) (x : SensorComponent)
    (hx : p x.label = false) (l1 l2 : List SensorComponent) :
    firstMatchTemp p (l1 ++ x :: l2) = firstMatchTemp p (l1 ++ l2) := by
  induction l1 with
  | nil => simp [firstMatchTemp, hx]
  | cons c rest ih =>
    by_cases h : p c.label <;> simp [firstMatchTemp, h, ih]

/-- C8: `cpu_temp` is the temperature of the first sensor (in enumeration
order) whose lowercased label matches the CPU substring set, `gpu_temp`
analogously for the GPU set; a sensor matching neither set affects
neither reading; and a set with no match reports 0. -/
theorem temperature_classification :
    (∀ comps : List SensorComponent,
      (TemperatureMonitor.update comps).cpu_temp =
        ((comps.find? fun c => cpuLabelMatch c.label).map
          SensorComponent.temperature).getD 0) ∧
    (∀ comps : List SensorComponent,
      (TemperatureMonitor.update comps).gpu_temp =
        ((comps.find? fun c => gpuLabelMatch c.label).map
          SensorComponent.temperature).getD 0) ∧
    (∀ (l1 l2 : List SensorComponent) (x : SensorComponent),
      cpuLabelMatch x.label = false → gpuLabelMatch x.label = false →
      TemperatureMonitor.update (l1 ++ x :: l2) =
        TemperatureMonitor.update (l1 ++ l2)) ∧
    (∀ comps : List SensorComponent,
      (∀ c ∈ comps, cpuLabelMatch c.label = false) →
      (TemperatureMonitor.update comps).cpu_temp = 0) ∧
    (∀ comps : List SensorComponent,
      (∀ c ∈ comps, gpuLabelMatch c.label = false) →
      (TemperatureMonitor.update comps).gpu_temp = 0) := by
  refine ⟨?_, ?_, ?_, ?_, ?_⟩
  · intro comps
    exact firstMatchTemp_eq_find cpuLabelMatch comps
  · intro comps
    exact firstMatchTemp_eq_find gpuLabelMatch comps
  · intro l1 l2 x hc hg
    unfold TemperatureMonitor.update
    rw [firstMatchTemp_skip cpuLabelMatch x hc, firstMatchTemp_skip gpuLabelMatch x hg]
  · intro comps h
    have hnone : comps.find? (fun c => cpuLabelMatch c.label) = none :=
      List.find?_eq_none.mpr (by simpa using h)
    simp [TemperatureMonitor.update, firstMatchTemp_eq_find, hnone]
  · intro comps h
    have hnone : comps.find? (fun c => gpuLabelMatch c.label) = none :=
      List.find?_eq_none.mpr (by simpa using h)
    simp [TemperatureMonitor.update, firstMatchTemp_eq_find, hnone]

/-- A sensor whose label matches neither substring set. -/
def fanSensor : SensorComponent :=
  { label := "fan1".toList, temperature := 55 }

/-- A CPU package sensor. -/
def packageSensor : SensorComponent :=
  { label := "Package id 0".toList, temperature := 61 }

/-- C8 (witness): removing the fan sensor leaves the readings of a
CPU-package-only list unchanged, and the empty list reports 0. -/
theorem temperature_classification_witness :
    TemperatureMonitor.update ([packageSensor] ++ fanSensor :: []) =
      TemperatureMonitor.update ([packageSensor] ++ []) ∧
    (TemperatureMonitor.update []).cpu_temp = 0 :=
  ⟨temperature_classification.2.2.1 [packageSensor] [] fanSensor
      (by decide) (by decide),
   temperature_classification.2.2.2.1 [] (by simp)⟩

/-- C7: whenever the targeted search for the title key yields nothing or
the empty string, the whole response parses to `none`; publishing `none`
resets the shared state to the default record, whose `is_active` is
false. -/
theorem empty_title_no_media :
    (∀ (json : List Char) (is_playing : Bool),
      (extract_json_string json "\"name\":\"".toList = none ∨
        extract_json_string json "\"name\":\"".toList = some []) →
      parse_cider_response json is_playing = none) ∧
    publishMediaResult none = MediaInfo.default ∧
    MediaInfo.default.is_active = false := by
  refine ⟨?_, rfl, rfl⟩
  intro json is_playing h
  unfold parse_cider_response
  rcases h with h | h <;>
    · rw [h]
      cases containsSubstring json ("\"status\":\"ok\"".toList) <;> rfl

/-- A now-playing response with `status` ok, an empty `name` and other
fields present. -/
def emptyTitleResponse : List Char :=
  "\x7b\"status\":\"ok\",\"info\":\x7b\"name\":\"\",\"artistName\":\"Some Artist\",\"durationInMillis\":200000\x7d\x7d".toList

/-- C7 (witness): the empty-title response parses to `none`. -/
theorem empty_title_no_media_witness :
    parse_cider_response emptyTitleResponse true = none :=
  empty_title_no_media.1 emptyTitleResponse true (Or.inr (by decide))

/-- The sysfs scan skips a non-card entry. -/
theorem fetchIntelSysfs_cons_not_card (e : DrmEntry) (rest : List DrmEntry)
    (h : isCardEntry e.name = false) :
    fetchIntelSysfs (e :: rest) = fetchIntelSysfs rest := by
  simp [fetchIntelSysfs, h]

/-- The sysfs scan skips a card entry with an unreadable or unparsable
frequency file. -/
theorem fetchIntelSysfs_cons_unreadable (e : DrmEntry) (rest : List DrmEntry)
    (hcard : isCardEntry e.name = true)
    (h : (e.cur_freq_file.bind fun s => parseDecimalQ (trimChars s)) = none ∨
      (e.max_freq_file.bind fun s => parseDecimalQ (trimChars s)) = none) :
    fetchIntelSysfs (e :: rest) = fetchIntelSysfs rest := by
  cases hcur : e.cur_freq_file with
  | none => simp [fetchIntelSysfs, hcard, hcur]
  | some cur_s =>
    cases hmax : e.max_freq_file with
    | none => simp [fetchIntelSysfs, hcard, hcur, hmax]
    | some max_s =>
      rw [hcur] at h
      rw [hmax] at h
      simp only [Option.some_bind] at h
      cases hpc : parseDecimalQ (trimChars cur_s) with
      | none => simp [fetchIntelSysfs, hcard, hcur, hmax, hpc]
      | some cur =>
        cases hpm : parseDecimalQ (trimChars max_s) with
        | none => simp [fetchIntelSysfs, hcard, hcur, hmax, hpc, hpm]
        | some mx =>
          rcases h with h | h
          · rw [hpc] at h
            exact absurd h (by simp)
          · rw [hpm] at h
            exact absurd h (by simp)

/-- The sysfs scan skips a card entry whose parsed max frequency is not
positive. -/
theorem fetchIntelSysfs_cons_nonpos (e : DrmEntry) (rest : List DrmEntry)
    (hcard : isCardEntry e.name = true) (cur_s max_s : List Char) (cur mx : ℚ)
    (hcur : e.cur_freq_file = some cur_s) (hmax : e.max_freq_file = some max_s)
    (hpc : parseDecimalQ (trimChars cur_s) = some cur)
    (hpm : parseDecimalQ (trimChars max_s) = some mx) (hmx : ¬0 < mx) :
    fetchIntelSysfs (e :: rest) = fetchIntelSysfs rest := by
  simp [fetchIntelSysfs, hcard, hcur, hmax, hpc, hpm, hmx]

/-- The sysfs scan returns the frequency ratio of a card entry whose
parsed max frequency is positive. -/
theorem fetchIntelSysfs_cons_pos (e : DrmEntry) (rest : List DrmEntry)
    (hcard : isCardEntry e.name = true) (cur_s max_s : List Char) (cur mx : ℚ)
    (hcur : e.cur_freq_file = some cur_s) (hmax : e.max_freq_file = some max_s)
    (hpc : parseDecimalQ (trimChars cur_s) = some cur)
    (hpm : parseDecimalQ (trimChars max_s) = some mx) (hmx : 0 < mx) :
    fetchIntelSysfs (e :: rest) = some (cur / mx * 100) := by
  simp [fetchIntelSysfs, hcard, hcur, hmax, hpc, hpm, hmx]

/-- C10: the Intel sysfs scan returns a value only from a card entry whose
two frequency files parse and whose max frequency is strictly positive,
the value being `(cur / max) * 100`; an entry whose parsed max frequency
is not positive contributes nothing and the scan moves past it. -/
theorem intel_sysfs_guard :
    (∀ (entries : List DrmEntry) (v : ℚ),
      fetchIntelSysfs entries = some v →
      ∃ e ∈ entries, isCardEntry e.name = true ∧
        ∃ cur_s max_s cur mx,
          e.cur_freq_file = some cur_s ∧ e.max_freq_file = some max_s ∧
          parseDecimalQ (trimChars cur_s) = some cur ∧
          parseDecimalQ (trimChars max_s) = some mx ∧
          0 < mx ∧ v = cur / mx * 100) ∧
    (∀ (e : DrmEntry) (rest : List DrmEntry) (cur_s max_s : List Char) (cur mx : ℚ),
      e.cur_freq_file = some cur_s → e.max_freq_file = some max_s →
      parseDecimalQ (trimChars cur_s) = some cur →
      parseDecimalQ (trimChars max_s) = some mx → mx ≤ 0 →
      fetchIntelSysfs (e :: rest) = fetchIntelSysfs rest) := by
  constructor
  · intro entries
    induction entries with
    | nil => intro v hv; simp [fetchIntelSysfs] at hv
    | cons e rest ih =>
      intro v hv
      by_cases hcard : isCardEntry e.name
      case neg =>
        rw [fetchIntelSysfs_cons_not_card e rest (by simpa using hcard)] at hv
        obtain ⟨e', he', hrest⟩ := ih v hv
        exact ⟨e', List.mem_cons_of_mem e he', hrest⟩
      case pos =>
        cases hpc : e.cur_freq_file.bind fun s => parseDecimalQ (trimChars s) with
        | none =>
          rw [fetchIntelSysfs_cons_unreadable e rest hcard (Or.inl hpc)] at hv
          obtain ⟨e', he', hrest⟩ := ih v hv
          exact ⟨e', List.mem_cons_of_mem e he', hrest⟩
        | some cur =>
          cases hpm : e.max_freq_file.bind fun s => parseDecimalQ (trimChars s) with
          | none =>
            rw [fetchIntelSysfs_cons_unreadable e rest hcard (Or.inr hpm)] at hv
            obtain ⟨e', he', hrest⟩ := ih v hv
            exact ⟨e', List.mem_cons_of_mem e he', hrest⟩
          | some mx =>
            obtain ⟨cur_s, hcur, hpc'⟩ := Option.bind_eq_some.mp hpc
            obtain ⟨max_s, hmax, hpm'⟩ := Option.bind_eq_some.mp hpm
            by_cases hpos : 0 < mx
            · rw [fetchIntelSysfs_cons_pos e rest hcard cur_s max_s cur mx
                hcur hmax hpc' hpm' hpos] at hv
              refine ⟨e, List.mem_cons_self e rest, hcard,
                cur_s, max_s, cur, mx, hcur, hmax, hpc', hpm', hpos, ?_⟩
              exact (Option.some_injective ℚ hv).symm
            · rw [fetchIntelSysfs_cons_nonpos e rest hcard cur_s max_s cur mx
                hcur hmax hpc' hpm' hpos] at hv
              obtain ⟨e', he', hrest⟩ := ih v hv
              exact ⟨e', List.mem_cons_of_mem e he', hrest⟩
  · intro e rest cur_s max_s cur mx hcur hmax hpc hpm hle
    by_cases hcard : isCardEntry e.name
    · exact fetchIntelSysfs_cons_nonpos e rest hcard cur_s max_s cur mx
        hcur hmax hpc hpm (not_lt.mpr hle)
    · exact fetchIntelSysfs_cons_not_card e rest (by simpa using hcard)

/-- A card entry advertising 50 MHz of a, positive, 100 MHz maximum. -/
def intelCardEntry : DrmEntry :=
  { name := "card0".toList
    cur_freq_file := some "50".toList
    max_freq_file := some "100".toList }

/-- A card entry whose reported maximum frequency is 0. -/
def intelZeroMaxEntry : DrmEntry :=
  { name := "card0".toList
    cur_freq_file := some "900".toList
    max_freq_file := some "0".toList }

/-- C10 (witness): the guard theorem applied to a concrete single-entry
scan with max 100, and the skip equation at a zero-max entry. -/
theorem intel_sysfs_guard_witness :
    (∃ e ∈ [intelCardEntry], isCardEntry e.name = true ∧
      ∃ cur_s max_s cur mx,
        e.cur_freq_file = some cur_s ∧ e.max_freq_file = some max_s ∧
        parseDecimalQ (trimChars cur_s) = some cur ∧
        parseDecimalQ (trimChars max_s) = some mx ∧
        0 < mx ∧ ((50 : ℕ) : ℚ) / ((100 : ℕ) : ℚ) * 100 = cur / mx * 100) ∧
    fetchIntelSysfs (intelZeroMaxEntry :: []) = fetchIntelSysfs [] :=
  ⟨intel_sysfs_guard.1 [intelCardEntry] (((50 : ℕ) : ℚ) / ((100 : ℕ) : ℚ) * 100) rfl,
   intel_sysfs_guard.2 intelZeroMaxEntry [] "900".toList "0".toList
     ((900 : ℕ) : ℚ) ((0 : ℕ) : ℚ) rfl rfl rfl rfl (by norm_num)⟩

end CosmicMonitor
